import Mathlib

/-!
Shallow embedding of the html-to-png viewport capture library
(source: src/exporter.ts plus its option types in src/types.ts).

JavaScript numbers appearing in geometry and option values are modelled
as rationals; inline style values and class tokens as strings; nullable
references as `Option`; the external html-to-image capability, the 2D
canvas context availability and `canvas.toDataURL` as an explicit
environment record of fallible functions.  `captureViewport` is embedded
as a state-passing function that also records an event trace (one event
per pipeline stage) and the arguments handed to the external calls, so
ordering and call-argument claims can be stated about single runs.
-/

namespace HtmlToPng

/-- Inline style record of a container element: the three inline style
slots read and written by `captureViewport` (`container.style.overflow`,
`container.style.scrollbarWidth`, and the custom property
`--webkit-scrollbar-display` read through `getPropertyValue`).  The empty
string models an absent inline value, as in the DOM. -/
structure InlineStyle where
  overflow : String := ""
  scrollbarWidth : String := ""
  webkitScrollbarDisplay : String := ""
  deriving DecidableEq, Repr

/-- A container element: its inline style, its class list, and the
geometry slots read by the library (`clientWidth`, `clientHeight`,
`scrollWidth`, `scrollHeight`, `scrollLeft`, `scrollTop`). -/
structure Container where
  style : InlineStyle := {}
  classes : List String := []
  clientWidth : ℚ := 0
  clientHeight : ℚ := 0
  scrollWidth : ℚ := 0
  scrollHeight : ℚ := 0
  scrollLeft : ℚ := 0
  scrollTop : ℚ := 0
  deriving DecidableEq, Repr

/-- The document state the library touches: the number of style elements
carrying the well-known id `__capture-viewport-styles`
(`document.getElementById` finding one models a nonzero count). -/
structure Document where
  styleCount : Nat := 0
  deriving DecidableEq, Repr

/-- `classList.add`: appends the token unless already present. -/
def classListAdd (cs : List String) (c : String) : List String :=
  if c ∈ cs then cs else cs ++ [c]

/-- `classList.remove`: deletes the token. -/
def classListRemove (cs : List String) (c : String) : List String :=
  cs.filter (fun x => x ≠ c)

/-- Output format, `'png' | 'jpeg'`. -/
inductive Format where
  | png
  | jpeg
  deriving DecidableEq, Repr, BEq

/-- `ExportOptions` from src/types.ts.  Absent fields are `none`
(undefined).  The node-exclusion callback `filter` is opaque to every
claim; its presence is modelled by `Option Unit` and it is passed through
unchanged. -/
structure ExportOptions where
  pixelRatio : Option ℚ := none
  quality : Option ℚ := none
  backgroundColor : Option String := none
  filter : Option Unit := none
  width : Option ℚ := none
  height : Option ℚ := none
  skipFonts : Option Bool := none
  deriving DecidableEq, Repr

/-- `region` rectangle of `ViewportOptions`. -/
structure Region where
  x : ℚ
  y : ℚ
  width : ℚ
  height : ℚ
  deriving DecidableEq, Repr

/-- `ViewportOptions extends ExportOptions` from src/types.ts. -/
structure ViewportOptions extends ExportOptions where
  format : Option Format := none
  hideScrollbars : Option Bool := none
  region : Option Region := none
  deriving DecidableEq, Repr

/-- `const DEFAULT_PIXEL_RATIO = 2`. -/
def defaultPixelRatio : ℚ := 2

/-- `const DEFAULT_JPEG_QUALITY = 0.95`. -/
def defaultJpegQuality : ℚ := 95 / 100

/-- `const DEFAULT_JPEG_BACKGROUND = '#ffffff'`. -/
def defaultJpegBackground : String := "#ffffff"

/-- The option record handed to the external html-to-image capability
(result of `toHtmlToImageOptions`, possibly with `width`/`height`
overridden at the `toCanvas` call site in `captureViewport`). -/
structure HtmlToImageOptions where
  pixelRatio : ℚ
  quality : ℚ
  backgroundColor : Option String
  filter : Option Unit
  width : Option ℚ
  height : Option ℚ
  skipFonts : Option Bool
  deriving DecidableEq, Repr

/-- `toHtmlToImageOptions(options, isJpeg)` from src/exporter.ts: fills
the defaults with `??` (nullish coalescing) semantics. -/
def toHtmlToImageOptions (options : ExportOptions) (isJpeg : Bool) : HtmlToImageOptions :=
  { pixelRatio := options.pixelRatio.getD defaultPixelRatio
    quality := options.quality.getD defaultJpegQuality
    backgroundColor :=
      match options.backgroundColor with
      | some b => some b
      | none => if isJpeg then some defaultJpegBackground else none
    filter := options.filter
    width := options.width
    height := options.height
    skipFonts := options.skipFonts }

/-- The record `drawImage(fullCanvas, sx, sy, sw, sh, dx, dy, dw, dh)`
call made by the crop step (the source canvas argument is always the
full-viewport canvas produced by rasterization and is not repeated
here). -/
structure DrawCall where
  sx : ℚ
  sy : ℚ
  sw : ℚ
  sh : ℚ
  dx : ℚ
  dy : ℚ
  dw : ℚ
  dh : ℚ
  deriving DecidableEq, Repr

/-- A canvas surface: raster width/height and the copy drawn into it, if
any. -/
structure Canvas where
  width : ℚ
  height : ℚ
  drawn : Option DrawCall := none
  deriving DecidableEq, Repr

/-- Pipeline stage events recorded by a run of `captureViewport`, in the
order the corresponding source statements execute. -/
inductive Event where
  | guardAcquire
  | styleInject
  | measure
  | rasterize
  | crop
  | encode
  | guardRelease
  deriving DecidableEq, Repr, BEq

/-- External capabilities consumed by `captureViewport`: the
html-to-image `toCanvas` call, availability of a 2D context from
`getContext`, and `canvas.toDataURL` (fallible, e.g. on a tainted
canvas). -/
structure Env where
  toCanvas : Container → HtmlToImageOptions → Except String Canvas
  ctx2dAvailable : Bool
  toDataURL : Canvas → String → Option ℚ → Except String String

/-- The marker class `'__capture-hide-scrollbars'`. -/
def markerClass : String := "__capture-hide-scrollbars"

/-- Everything observable about one run of `captureViewport`: its result,
the container as the external rasterizer saw it (`midContainer?`), the
container and document after return, the event trace, the option record
bound into the `toCanvas` call, and the cropped canvas when the crop path
ran. -/
structure Trace where
  result : Except String String
  container? : Option Container
  midContainer? : Option Container
  doc : Document
  events : List Event
  toCanvasArgs : Option HtmlToImageOptions
  croppedCanvas? : Option Canvas
  deriving Repr

/-- Lines 312-328 of src/exporter.ts: when `hideScrollbars`, set
`style.scrollbarWidth = 'none'`, add the marker class, then inject the
shared style element only when `getElementById` finds none. -/
def acquireGuard (c : Container) (doc : Document) (hide : Bool) :
    Container × Document × List Event :=
  if hide then
    let c1 : Container :=
      { c with
        style := { c.style with scrollbarWidth := "none" }
        classes := classListAdd c.classes markerClass }
    if doc.styleCount = 0 then
      (c1, { styleCount := doc.styleCount + 1 }, [Event.guardAcquire, Event.styleInject])
    else
      (c1, doc, [Event.guardAcquire])
  else
    (c, doc, [])

/-- The `finally` block (lines 385-393): restore `overflow` and
`scrollbarWidth`, restore the custom property only when its saved value
is truthy (a nonempty string), and remove the marker class. -/
def releaseGuard (c : Container) (origOverflow origScrollbarWidth origWebkit : String) :
    Container :=
  let c1 : Container :=
    { c with style := { c.style with
        overflow := origOverflow
        scrollbarWidth := origScrollbarWidth } }
  let c2 : Container :=
    if origWebkit ≠ "" then
      { c1 with style := { c1.style with webkitScrollbarDisplay := origWebkit } }
    else c1
  { c2 with classes := classListRemove c2.classes markerClass }

/-- `canvas.toDataURL` dispatch: `'image/jpeg'` with
`restOptions.quality ?? DEFAULT_JPEG_QUALITY`, or `'image/png'` with no
quality argument. -/
def encodeCanvas (env : Env) (cv : Canvas) (format : Format) (quality? : Option ℚ) :
    Except String String :=
  match format with
  | Format.jpeg => env.toDataURL cv "image/jpeg" (some (quality?.getD defaultJpegQuality))
  | Format.png => env.toDataURL cv "image/png" none

/-- Lines 342-377: the region crop.  Scales every region field by
`pixelRatio` (no rounding), sets the new canvas's raster size to the
scaled width/height, fails if no 2D context, otherwise draws the scaled
source rectangle to the origin and encodes. -/
def cropRegion (env : Env) (r : Region) (pr : ℚ) (format : Format) (quality? : Option ℚ) :
    Except String String × List Event × Option Canvas :=
  let scaled : Region :=
    { x := r.x * pr
      y := r.y * pr
      width := r.width * pr
      height := r.height * pr }
  let allocated : Canvas := { width := scaled.width, height := scaled.height, drawn := none }
  if env.ctx2dAvailable then
    let cropped : Canvas :=
      { allocated with
        drawn := some
          { sx := scaled.x, sy := scaled.y, sw := scaled.width, sh := scaled.height
            dx := 0, dy := 0, dw := scaled.width, dh := scaled.height } }
    (encodeCanvas env cropped format quality?, [Event.crop, Event.encode], some cropped)
  else
    (Except.error "Failed to get canvas context", [], some allocated)

/-- The body of the `try` block after measurement: the `toCanvas` call
and, on success, the crop-or-encode branch on `region`. -/
def runTry (env : Env) (c1 : Container) (args : HtmlToImageOptions)
    (region : Option Region) (pr : ℚ) (format : Format) (quality? : Option ℚ) :
    Except String String × List Event × Option Canvas :=
  match env.toCanvas c1 args with
  | Except.error e => (Except.error e, [], none)
  | Except.ok fullCanvas =>
    match region with
    | some r => cropRegion env r pr format quality?
    | none => (encodeCanvas env fullCanvas format quality?, [Event.encode], none)

/-- The JavaScript rest-spread `...restOptions` of the destructuring in
`captureViewport`: every option except the explicitly destructured
`format`, `hideScrollbars`, `region` and `pixelRatio`. -/
def ViewportOptions.restOptions (o : ViewportOptions) : ExportOptions :=
  { o.toExportOptions with pixelRatio := none }

/-- `captureViewport(container, options)` for a non-null container,
following src/exporter.ts lines 297-394 statement by statement: resolve
destructuring defaults, save the three original style values, acquire the
guard, read `clientWidth`/`clientHeight`, call `toCanvas` with the spread
option record whose `width`/`height` fields are then overridden by the
measured values, crop/encode, and run the `finally` restoration on every
path. -/
def captureViewportBody (env : Env) (doc : Document) (c : Container)
    (opts : ViewportOptions) : Trace :=
  let format := opts.format.getD Format.png
  let hide := opts.hideScrollbars.getD true
  let pr := opts.pixelRatio.getD defaultPixelRatio
  let origOverflow := c.style.overflow
  let origScrollbarWidth := c.style.scrollbarWidth
  let origWebkit := c.style.webkitScrollbarDisplay
  let acq := acquireGuard c doc hide
  let c1 := acq.1
  let doc1 := acq.2.1
  let visibleWidth := c1.clientWidth
  let visibleHeight := c1.clientHeight
  let args : HtmlToImageOptions :=
    { toHtmlToImageOptions { opts.restOptions with pixelRatio := some pr } (format == Format.jpeg) with
      width := some visibleWidth
      height := some visibleHeight }
  let tryOut := runTry env c1 args opts.region pr format opts.quality
  let cFinal := releaseGuard c1 origOverflow origScrollbarWidth origWebkit
  { result := tryOut.1
    container? := some cFinal
    midContainer? := some c1
    doc := doc1
    events := acq.2.2 ++ [Event.measure, Event.rasterize] ++ (tryOut.2.1 ++ [Event.guardRelease])
    toCanvasArgs := some args
    croppedCanvas? := tryOut.2.2 }

/-- `captureViewport` including the initial null-container check. -/
def captureViewport (env : Env) (doc : Document) (container? : Option Container)
    (opts : ViewportOptions) : Trace :=
  match container? with
  | none =>
    { result := Except.error "Container element is required for viewport capture"
      container? := none
      midContainer? := none
      doc := doc
      events := []
      toCanvasArgs := none
      croppedCanvas? := none }
  | some c => captureViewportBody env doc c opts

/-- The result record of `getViewportInfo` (lines 411-442). -/
structure ViewportInfo where
  visibleWidth : ℚ
  visibleHeight : ℚ
  scrollLeft : ℚ
  scrollTop : ℚ
  scrollWidth : ℚ
  scrollHeight : ℚ
  isScrollable : Bool
  hasHorizontalScroll : Bool
  hasVerticalScroll : Bool
  deriving DecidableEq, Repr

/-- `getViewportInfo(container)`: pure query over the geometry slots,
throwing on a null container. -/
def getViewportInfo (container? : Option Container) : Except String ViewportInfo :=
  match container? with
  | none => Except.error "Container element is required"
  | some c =>
    Except.ok
      { visibleWidth := c.clientWidth
        visibleHeight := c.clientHeight
        scrollLeft := c.scrollLeft
        scrollTop := c.scrollTop
        scrollWidth := c.scrollWidth
        scrollHeight := c.scrollHeight
        isScrollable := decide (c.scrollWidth > c.clientWidth) || decide (c.scrollHeight > c.clientHeight)
        hasHorizontalScroll := decide (c.scrollWidth > c.clientWidth)
        hasVerticalScroll := decide (c.scrollHeight > c.clientHeight) }

/-- External capabilities consumed by the four element-export entry
points (the html-to-image `toPng`, `toJpeg`, `toBlob`, `toCanvas`
functions). -/
structure ExportEnv where
  toPng : Container → HtmlToImageOptions → Except String String
  toJpeg : Container → HtmlToImageOptions → Except String String
  toBlob : Container → HtmlToImageOptions → Except String (Option Unit)
  elementToCanvas : Container → HtmlToImageOptions → Except String Canvas

/-- `exportToPng(element, options)` (lines 122-132). -/
def exportToPng (env : ExportEnv) (element? : Option Container)
    (options : ExportOptions) : Except String String :=
  match element? with
  | none => Except.error "Element is required for PNG export"
  | some el => env.toPng el (toHtmlToImageOptions options false)

/-- `exportToJpeg(element, options)` (lines 149-159). -/
def exportToJpeg (env : ExportEnv) (element? : Option Container)
    (options : ExportOptions) : Except String String :=
  match element? with
  | none => Except.error "Element is required for JPEG export"
  | some el => env.toJpeg el (toHtmlToImageOptions options true)

/-- `exportToBlob(element, options)` (lines 174-184). -/
def exportToBlob (env : ExportEnv) (element? : Option Container)
    (options : ExportOptions) : Except String (Option Unit) :=
  match element? with
  | none => Except.error "Element is required for Blob export"
  | some el => env.toBlob el (toHtmlToImageOptions options false)

/-- `exportToCanvas(element, options)` (lines 199-209). -/
def exportToCanvas (env : ExportEnv) (element? : Option Container)
    (options : ExportOptions) : Except String Canvas :=
  match element? with
  | none => Except.error "Element is required for Canvas export"
  | some el => env.elementToCanvas el (toHtmlToImageOptions options false)

/-- The user agent's object-URL registry: the set of currently live
object URLs plus a counter from which `URL.createObjectURL` mints fresh
`blob:` URLs. -/
structure UrlState where
  liveUrls : List String := []
  nextId : Nat := 0
  deriving DecidableEq, Repr

/-- The `blob:` URL minted for the n-th created object URL. -/
def mkObjectUrl (n : Nat) : String := "blob:" ++ toString n

/-- `URL.createObjectURL(blob)`: returns a fresh nonempty URL and
registers it live. -/
def createObjectURL (s : UrlState) : String × UrlState :=
  (mkObjectUrl s.nextId,
   { liveUrls := s.liveUrls ++ [mkObjectUrl s.nextId], nextId := s.nextId + 1 })

/-- `URL.revokeObjectURL(url)`: removes the URL from the live set. -/
def revokeObjectURL (s : UrlState) (url : String) : UrlState :=
  { s with liveUrls := s.liveUrls.filter (fun u => u ≠ url) }

/-- `downloadImage(dataUrl, filename)` (lines 223-238): the two
precondition checks (JavaScript string truthiness: only the empty string
is falsy); the anchor-click side effects have no further observable
state. -/
def downloadImage (dataUrl : String) (filename : String) : Except String Unit :=
  if dataUrl = "" then Except.error "Data URL is required for download"
  else if filename = "" then Except.error "Filename is required for download"
  else Except.ok ()

instance exceptDecEq {ε α : Type} [DecidableEq ε] [DecidableEq α] :
    DecidableEq (Except ε α) := fun a b =>
  match a, b with
  | Except.error e, Except.error f => decidable_of_iff (e = f) (by simp)
  | Except.ok x, Except.ok y => decidable_of_iff (x = y) (by simp)
  | Except.error _, Except.ok _ => Decidable.isFalse (by simp)
  | Except.ok _, Except.error _ => Decidable.isFalse (by simp)

/-- Everything observable about one `downloadBlob` run: result, final
URL registry, the object URLs it created, and the argument pairs of its
`downloadImage` calls. -/
structure DownloadTrace where
  result : Except String Unit
  urls : UrlState
  createdUrls : List String
  imageCalls : List (String × String)
  deriving DecidableEq, Repr

/-- `downloadBlob(blob, filename)` (lines 252-263): validate, create an
object URL, hand it to `downloadImage`, then revoke it.  There is no
try/finally here: if `downloadImage` threw, the revocation would be
skipped. -/
def downloadBlob (blob? : Option Unit) (filename : String) (s : UrlState) :
    DownloadTrace :=
  match blob? with
  | none =>
    { result := Except.error "Blob is required for download"
      urls := s, createdUrls := [], imageCalls := [] }
  | some _ =>
    if filename = "" then
      { result := Except.error "Filename is required for download"
        urls := s, createdUrls := [], imageCalls := [] }
    else
      let created := createObjectURL s
      match downloadImage created.1 filename with
      | Except.error e =>
        { result := Except.error e
          urls := created.2, createdUrls := [created.1], imageCalls := [(created.1, filename)] }
      | Except.ok _ =>
        { result := Except.ok ()
          urls := revokeObjectURL created.2 created.1
          createdUrls := [created.1], imageCalls := [(created.1, filename)] }

/-- A URL registry is well formed when the URL about to be minted is not
already live (always true of registries produced by the model itself). -/
def UrlState.wf (s : UrlState) : Prop := mkObjectUrl s.nextId ∉ s.liveUrls

/-- Run a whole list of `captureViewport` calls against the same
container, threading the document and container state. -/
def runCaptures (env : Env) (doc : Document) (c : Container) :
    List ViewportOptions → Document × Container
  | [] => (doc, c)
  | o :: rest =>
    let t := captureViewport env doc (some c) o
    runCaptures env t.doc (t.container?.getD c) rest

/-- `eventsOrdered es a b` says every occurrence of `a` in `es` comes
strictly before every occurrence of `b`: whenever `b` is found, no `a`
may follow at or after it. -/
def eventsOrdered : List Event → Event → Event → Bool
  | [], _, _ => true
  | e :: rest, a, b => (if e == b then !(rest.contains a) && !(a == b) else true) && eventsOrdered rest a b

/-- The measured dimensions bound into the `toCanvas` call of a run, when
the call happened. -/
def boundDims (t : Trace) : Option (Option ℚ × Option ℚ) :=
  match t.toCanvasArgs with
  | none => none
  | some a => some (a.width, a.height)

lemma classListRemove_not_mem (cs : List String) (m : String) :
    m ∉ classListRemove cs m := by
  unfold classListRemove
  simp [List.mem_filter]

lemma classListRemove_eq_of_not_mem (cs : List String) (m : String) (h : m ∉ cs) :
    classListRemove cs m = cs := by
  unfold classListRemove
  apply List.filter_eq_self.mpr
  intro a ha
  by_cases hax : a = m
  · exact absurd (hax ▸ ha) h
  · simp [hax]

lemma classListRemove_classListAdd (cs : List String) (m : String) :
    classListRemove (classListAdd cs m) m = classListRemove cs m := by
  unfold classListAdd classListRemove
  by_cases h : m ∈ cs
  · simp [h]
  · simp [h, List.filter_append]

/-- The container returned by every run of `captureViewport` on a
non-null container: the original container with the marker class
removed from its class list, all three inline style slots restored. -/
lemma capture_final_container (env : Env) (doc : Document) (c : Container)
    (opts : ViewportOptions) :
    (captureViewport env doc (some c) opts).container? =
      some { c with classes := classListRemove c.classes markerClass } := by
  unfold captureViewport captureViewportBody releaseGuard acquireGuard
  by_cases hh : opts.hideScrollbars.getD true
  · by_cases hd : doc.styleCount = 0 <;>
      by_cases hw : c.style.webkitScrollbarDisplay ≠ "" <;>
        simp [hh, hd, hw, classListRemove_classListAdd]
  · by_cases hw : c.style.webkitScrollbarDisplay ≠ "" <;>
      simp [hh, hw]

/-- The container as the rasterizer saw it: either untouched
(`hideScrollbars` false) or with only the inline scrollbar-width set to
`'none'` and the marker class added. -/
lemma capture_mid_container (env : Env) (doc : Document) (c : Container)
    (opts : ViewportOptions) :
    (captureViewport env doc (some c) opts).midContainer? = some c ∨
      (captureViewport env doc (some c) opts).midContainer? =
        some { c with
          style := { c.style with scrollbarWidth := "none" }
          classes := classListAdd c.classes markerClass } := by
  unfold captureViewport captureViewportBody acquireGuard
  by_cases hh : opts.hideScrollbars.getD true
  · by_cases hd : doc.styleCount = 0 <;> simp [hh, hd]
  · simp [hh]

/-- Style-element count after one capture: incremented to one exactly
when scrollbar hiding is on and no style element with the well-known id
exists yet; otherwise unchanged. -/
lemma capture_doc_styleCount (env : Env) (doc : Document) (c : Container)
    (opts : ViewportOptions) :
    (captureViewport env doc (some c) opts).doc.styleCount =
      if opts.hideScrollbars.getD true = true ∧ doc.styleCount = 0 then 1
      else doc.styleCount := by
  unfold captureViewport captureViewportBody acquireGuard
  by_cases hh : opts.hideScrollbars.getD true <;>
    by_cases hd : doc.styleCount = 0 <;> simp [hh, hd]

lemma capture_doc_mono (env : Env) (doc : Document) (c : Container)
    (opts : ViewportOptions) :
    doc.styleCount ≤ (captureViewport env doc (some c) opts).doc.styleCount := by
  rw [capture_doc_styleCount]
  split
  · next h =>
      rw [h.2]
      exact Nat.zero_le 1
  · exact Nat.le_refl _

lemma acquireGuard_events_cases (c : Container) (doc : Document) (hide : Bool) :
    (acquireGuard c doc hide).2.2 = [] ∨
      (acquireGuard c doc hide).2.2 = [Event.guardAcquire, Event.styleInject] ∨
      (acquireGuard c doc hide).2.2 = [Event.guardAcquire] := by
  cases hide
  · simp [acquireGuard]
  · by_cases hd : doc.styleCount = 0 <;> simp [acquireGuard, hd]

lemma runTry_events_cases (env : Env) (c1 : Container) (args : HtmlToImageOptions)
    (region : Option Region) (pr : ℚ) (format : Format) (quality? : Option ℚ) :
    (runTry env c1 args region pr format quality?).2.1 = [] ∨
      (runTry env c1 args region pr format quality?).2.1 = [Event.encode] ∨
      (runTry env c1 args region pr format quality?).2.1 = [Event.crop, Event.encode] := by
  unfold runTry
  cases env.toCanvas c1 args
  · simp
  · cases region
    · simp
    · unfold cropRegion
      cases env.ctx2dAvailable <;> simp

/-- Every run's event trace decomposes into an acquisition prefix, the
fixed measure/rasterize pair, a crop/encode segment and the single
release event. -/
lemma capture_events_shape (env : Env) (doc : Document) (c : Container)
    (opts : ViewportOptions) :
    ∃ A B, (captureViewport env doc (some c) opts).events =
        A ++ [Event.measure, Event.rasterize] ++ (B ++ [Event.guardRelease]) ∧
      (A = [] ∨ A = [Event.guardAcquire, Event.styleInject] ∨ A = [Event.guardAcquire]) ∧
      (B = [] ∨ B = [Event.encode] ∨ B = [Event.crop, Event.encode]) := by
  unfold captureViewport captureViewportBody
  exact ⟨_, _, rfl, acquireGuard_events_cases _ _ _, runTry_events_cases _ _ _ _ _ _ _⟩

/-- Result of the failed `toCanvas` branch, the crop-context-missing
branch, or the failed `toDataURL` branch of the try pipeline: the
underlying error is returned unchanged. -/
lemma runTry_result_error (env : Env) (c1 : Container) (args : HtmlToImageOptions)
    (region : Option Region) (pr : ℚ) (format : Format) (quality? : Option ℚ)
    (msg : String)
    (h : (∀ x a, env.toCanvas x a = Except.error msg) ∨
      ((∀ x a, ∃ cv, env.toCanvas x a = Except.ok cv) ∧ env.ctx2dAvailable = false ∧
        region.isSome = true ∧ msg = "Failed to get canvas context") ∨
      ((∀ x a, ∃ cv, env.toCanvas x a = Except.ok cv) ∧ env.ctx2dAvailable = true ∧
        (∀ cv f qq, env.toDataURL cv f qq = Except.error msg))) :
    (runTry env c1 args region pr format quality?).1 = Except.error msg := by
  unfold runTry
  rcases h with h | ⟨hok, hctx, hreg, hmsg⟩ | ⟨hok, hctx, henc⟩
  · rw [h c1 args]
  · obtain ⟨cv, hcv⟩ := hok c1 args
    rcases region with _ | r
    · simp at hreg
    · simp [hcv, cropRegion, hctx, hmsg]
  · obtain ⟨cv, hcv⟩ := hok c1 args
    rcases region with _ | r
    · cases format <;> simp [hcv, encodeCanvas, henc]
    · cases format <;> simp [hcv, cropRegion, hctx, encodeCanvas, henc]

/-- When the try pipeline records a cropped canvas and the 2D context is
available, the cropped canvas is exactly the scaled-region surface with
the scaled copy drawn at the origin. -/
lemma runTry_cropped (env : Env) (c1 : Container) (args : HtmlToImageOptions)
    (r : Region) (pr : ℚ) (format : Format) (quality? : Option ℚ) (cv : Canvas)
    (hctx : env.ctx2dAvailable = true)
    (h : (runTry env c1 args (some r) pr format quality?).2.2 = some cv) :
    cv = { width := r.width * pr
           height := r.height * pr
           drawn := some { sx := r.x * pr, sy := r.y * pr, sw := r.width * pr, sh := r.height * pr
                           dx := 0, dy := 0, dw := r.width * pr, dh := r.height * pr } } := by
  unfold runTry at h
  rcases h2 : env.toCanvas c1 args with e | fc <;> rw [h2] at h
  · simp at h
  · simp [cropRegion, hctx] at h
    exact h.symm

/-- Environment in which the external rasterizer and the encoder always
succeed and a 2D context is available. -/
def okEnv : Env :=
  { toCanvas := fun _ _ => Except.ok { width := 800, height := 600 }
    ctx2dAvailable := true
    toDataURL := fun _ _ _ => Except.ok "data:image" }

/-- Environment whose rasterization capability always rejects. -/
def failEnv : Env :=
  { okEnv with toCanvas := fun _ _ => Except.error "boom" }

/-- A 400x300 non-scrolling container with no inline styles. -/
def sampleContainer : Container :=
  { clientWidth := 400, clientHeight := 300, scrollWidth := 400, scrollHeight := 300 }

/-- C1 counterexample: the claim that `captureViewport` restores the
exact pre-call class list fails when the marker class
`__capture-hide-scrollbars` was already present before the call: the
run returns the container with an empty class list, not the original
one-element class list. -/
theorem c1_class_restoration_counterexample :
    (captureViewport okEnv {} (some { classes := [markerClass] }) {}).container? =
      some ({ classes := [] } : Container) ∧
    ({ classes := [markerClass] } : Container).classes ≠ ([] : List String) := by
  exact ⟨rfl, by simp [markerClass]⟩

/-- C1 (amended): on every exit path of `captureViewport`, the returned
container's inline scrollbar-width, its `--webkit-scrollbar-display`
property and its inline overflow equal their pre-call values for any
prior combination (absent, custom, or already `'none'`); the marker
class is absent after the call, which restores the exact pre-call class
list whenever the marker class was not already present before the
call. -/
theorem c1_guard_restoration (env : Env) (doc : Document) (c : Container)
    (opts : ViewportOptions) :
    ∃ cFinal, (captureViewport env doc (some c) opts).container? = some cFinal ∧
      cFinal.style.scrollbarWidth = c.style.scrollbarWidth ∧
      cFinal.style.webkitScrollbarDisplay = c.style.webkitScrollbarDisplay ∧
      cFinal.style.overflow = c.style.overflow ∧
      markerClass ∉ cFinal.classes ∧
      (markerClass ∉ c.classes → cFinal.classes = c.classes) :=
  ⟨_, capture_final_container env doc c opts, rfl, rfl, rfl,
    classListRemove_not_mem _ _, fun h => classListRemove_eq_of_not_mem _ _ h⟩

/-- A container with custom inline styles (overflow `auto`, scrollbar
width `thin`, custom property `block`) and an unrelated class. -/
def styledContainer : Container :=
  { style := { overflow := "auto", scrollbarWidth := "thin", webkitScrollbarDisplay := "block" }
    classes := ["canvas-root"]
    clientWidth := 400, clientHeight := 300, scrollWidth := 400, scrollHeight := 300 }

/-- C1 witness: a capture of a container with custom inline styles and
no marker class returns it with all three style slots and the class list
restored. -/
theorem c1_guard_restoration_witness :
    ∃ cFinal, (captureViewport okEnv {} (some styledContainer) {}).container? = some cFinal ∧
      cFinal.style.scrollbarWidth = styledContainer.style.scrollbarWidth ∧
      cFinal.style.webkitScrollbarDisplay = styledContainer.style.webkitScrollbarDisplay ∧
      cFinal.style.overflow = styledContainer.style.overflow ∧
      markerClass ∉ cFinal.classes ∧
      (markerClass ∉ styledContainer.classes → cFinal.classes = styledContainer.classes) :=
  c1_guard_restoration okEnv {} styledContainer {}

/-- C2: whenever a run of `captureViewport` fails in rasterization, in
obtaining the crop context, or in encoding, the original error is the
one returned (not suppressed), the guard release runs exactly once, and
the returned container has its saved styles restored and the marker
class removed. -/
theorem c2_release_on_failure (env : Env) (doc : Document) (c : Container)
    (opts : ViewportOptions) (msg : String)
    (h : (∀ x a, env.toCanvas x a = Except.error msg) ∨
      ((∀ x a, ∃ cv, env.toCanvas x a = Except.ok cv) ∧ env.ctx2dAvailable = false ∧
        opts.region.isSome = true ∧ msg = "Failed to get canvas context") ∨
      ((∀ x a, ∃ cv, env.toCanvas x a = Except.ok cv) ∧ env.ctx2dAvailable = true ∧
        (∀ cv f qq, env.toDataURL cv f qq = Except.error msg))) :
    (captureViewport env doc (some c) opts).result = Except.error msg ∧
    (captureViewport env doc (some c) opts).events.count Event.guardRelease = 1 ∧
    (captureViewport env doc (some c) opts).container? =
      some { c with classes := classListRemove c.classes markerClass } := by
  refine ⟨?_, ?_, capture_final_container env doc c opts⟩
  · unfold captureViewport captureViewportBody
    exact runTry_result_error env _ _ opts.region _ _ opts.quality msg h
  · obtain ⟨A, B, hshape, hA, hB⟩ := capture_events_shape env doc c opts
    rw [hshape]
    rcases hA with rfl | rfl | rfl <;> rcases hB with rfl | rfl | rfl <;> decide

/-- C2 witness: a concrete run whose rasterizer rejects with `"boom"`
re-raises that error, releases the guard exactly once and returns the
restored container. -/
theorem c2_release_on_failure_witness :
    (captureViewport failEnv {} (some sampleContainer) {}).result = Except.error "boom" ∧
    (captureViewport failEnv {} (some sampleContainer) {}).events.count Event.guardRelease = 1 ∧
    (captureViewport failEnv {} (some sampleContainer) {}).container? =
      some { sampleContainer with classes := classListRemove sampleContainer.classes markerClass } :=
  c2_release_on_failure failEnv {} sampleContainer {} "boom" (Or.inl fun _ _ => rfl)

/-- Caller options supplying explicit width/height overrides, used to
test which dimensions reach the rasterization call. -/
def c3Options : ViewportOptions := { width := some 999, height := some 777 }

/-- C3 counterexample: the claim that caller-supplied width/height
overrides are bound into the rasterization call fails: with overrides
999x777 on a 400x300 container, the `toCanvas` call receives the
measured 400x300, because the call site spreads the converted options
first and then overwrites `width`/`height` with the measured values. -/
theorem c3_override_counterexample :
    boundDims (captureViewport okEnv {} (some sampleContainer) c3Options) =
      some (some 400, some 300) ∧
    c3Options.width = some 999 ∧ c3Options.height = some 777 ∧
    ((some (400 : ℚ), some (300 : ℚ)) : Option ℚ × Option ℚ) ≠ (some 999, some 777) := by
  refine ⟨rfl, rfl, rfl, by decide⟩

/-- C3 (amended): the width and height bound into the external
rasterization call are always the container's measured visible
dimensions (`clientWidth`, `clientHeight`); caller-supplied
`width`/`height` overrides are overwritten by the measured values. -/
theorem c3_dims_always_measured (env : Env) (doc : Document) (c : Container)
    (opts : ViewportOptions) :
    boundDims (captureViewport env doc (some c) opts) =
      some (some c.clientWidth, some c.clientHeight) := by
  unfold captureViewport captureViewportBody boundDims
  by_cases hh : opts.hideScrollbars.getD true
  · by_cases hd : doc.styleCount = 0 <;> simp [hh, hd, acquireGuard]
  · simp [hh, acquireGuard]

/-- C4 counterexample: the claim that measurement happens before guard
acquisition fails on a default run: the trace acquires the guard (and
injects the style resource) before reading `clientWidth`/`clientHeight`. -/
theorem c4_measure_order_counterexample :
    eventsOrdered (captureViewport okEnv {} (some sampleContainer) {}).events
        Event.measure Event.guardAcquire = false ∧
    (captureViewport okEnv {} (some sampleContainer) {}).events =
      [Event.guardAcquire, Event.styleInject, Event.measure, Event.rasterize,
       Event.encode, Event.guardRelease] := by
  exact ⟨rfl, rfl⟩

/-- C4 (amended): in every execution of `captureViewport`, the guard
acquisition (when it occurs) happens before the measurement of the
visible dimensions, which happens before the rasterization call, which
happens before the optional crop, which happens before encoding. -/
theorem c4_stage_ordering (env : Env) (doc : Document) (c : Container)
    (opts : ViewportOptions) :
    eventsOrdered (captureViewport env doc (some c) opts).events
        Event.guardAcquire Event.measure = true ∧
    eventsOrdered (captureViewport env doc (some c) opts).events
        Event.measure Event.rasterize = true ∧
    eventsOrdered (captureViewport env doc (some c) opts).events
        Event.rasterize Event.crop = true ∧
    eventsOrdered (captureViewport env doc (some c) opts).events
        Event.crop Event.encode = true ∧
    eventsOrdered (captureViewport env doc (some c) opts).events
        Event.rasterize Event.encode = true := by
  obtain ⟨A, B, hshape, hA, hB⟩ := capture_events_shape env doc c opts
  rw [hshape]
  rcases hA with rfl | rfl | rfl <;> rcases hB with rfl | rfl | rfl <;> decide

/-- C5: for every region and pixel ratio, the crop step scales each
region field by the pixel ratio with no rounding, allocates an output
surface of exactly the scaled width by the scaled height, and copies the
scaled source rectangle to the output surface's origin. -/
theorem c5_crop_scaling (env : Env) (doc : Document) (c : Container)
    (opts : ViewportOptions) (r : Region) (cv : Canvas)
    (hr : opts.region = some r)
    (hctx : env.ctx2dAvailable = true)
    (hcv : (captureViewport env doc (some c) opts).croppedCanvas? = some cv) :
    cv.width = r.width * opts.pixelRatio.getD 2 ∧
    cv.height = r.height * opts.pixelRatio.getD 2 ∧
    cv.drawn = some
      { sx := r.x * opts.pixelRatio.getD 2
        sy := r.y * opts.pixelRatio.getD 2
        sw := r.width * opts.pixelRatio.getD 2
        sh := r.height * opts.pixelRatio.getD 2
        dx := 0, dy := 0
        dw := r.width * opts.pixelRatio.getD 2
        dh := r.height * opts.pixelRatio.getD 2 } := by
  unfold captureViewport captureViewportBody at hcv
  rw [hr] at hcv
  have := runTry_cropped env _ _ r _ _ opts.quality cv hctx hcv
  rw [this]
  exact ⟨rfl, rfl, rfl⟩

/-- Region and options of the concrete crop scenario of the claim. -/
def c5Region : Region := { x := 100, y := 50, width := 400, height := 300 }

/-- Options requesting the claim's concrete region at pixel ratio 2. -/
def c5Options : ViewportOptions := { pixelRatio := some 2, region := some c5Region }

/-- The cropped canvas that scenario produces: an 800x600 surface with
source rectangle 200,100,800,600 copied to its origin. -/
def c5Cropped : Canvas :=
  { width := 800, height := 600
    drawn := some { sx := 200, sy := 100, sw := 800, sh := 600
                    dx := 0, dy := 0, dw := 800, dh := 600 } }

/-- C5 witness: the concrete region 100,50,400,300 at pixel ratio 2
yields source rectangle 200,100,800,600 and an 800x600 output. -/
lemma c5_cropped_eval :
    (captureViewport okEnv {} (some sampleContainer) c5Options).croppedCanvas? =
      some c5Cropped := by
  unfold captureViewport captureViewportBody runTry cropRegion okEnv c5Options c5Region c5Cropped
  norm_num

theorem c5_crop_scaling_witness :
    (captureViewport okEnv {} (some sampleContainer) c5Options).croppedCanvas? =
      some c5Cropped ∧
    (c5Cropped.width = c5Region.width * c5Options.pixelRatio.getD 2 ∧
     c5Cropped.height = c5Region.height * c5Options.pixelRatio.getD 2 ∧
     c5Cropped.drawn = some
       { sx := c5Region.x * c5Options.pixelRatio.getD 2
         sy := c5Region.y * c5Options.pixelRatio.getD 2
         sw := c5Region.width * c5Options.pixelRatio.getD 2
         sh := c5Region.height * c5Options.pixelRatio.getD 2
         dx := 0, dy := 0
         dw := c5Region.width * c5Options.pixelRatio.getD 2
         dh := c5Region.height * c5Options.pixelRatio.getD 2 }) :=
  ⟨c5_cropped_eval,
   c5_crop_scaling okEnv {} sampleContainer c5Options c5Region c5Cropped rfl rfl c5_cropped_eval⟩

/-- One capture step changes the style-element count to one exactly when
scrollbar hiding is on and the count was zero, and otherwise leaves it
unchanged; a list of captures starting from a document without the
shared style element therefore ends with exactly one copy when any
capture hid scrollbars, and none otherwise. -/
lemma runCaptures_styleCount_one (env : Env) :
    ∀ (l : List ViewportOptions) (doc : Document) (c : Container),
      doc.styleCount = 1 → (runCaptures env doc c l).1.styleCount = 1 := by
  intro l
  induction l with
  | nil => intro doc c h; simpa [runCaptures] using h
  | cons o rest ih =>
    intro doc c h
    simp only [runCaptures]
    apply ih
    rw [capture_doc_styleCount, if_neg]
    · exact h
    · rintro ⟨-, h0⟩
      rw [h0] at h
      exact Nat.zero_ne_one h

lemma runCaptures_styleCount_from_zero (env : Env) :
    ∀ (l : List ViewportOptions) (doc : Document) (c : Container),
      doc.styleCount = 0 →
      (runCaptures env doc c l).1.styleCount =
        if l.any (fun o => o.hideScrollbars.getD true) then 1 else 0 := by
  intro l
  induction l with
  | nil => intro doc c h; simpa [runCaptures] using h
  | cons o rest ih =>
    intro doc c h
    simp only [runCaptures]
    by_cases ho : o.hideScrollbars.getD true = true
    · have hd1 : (captureViewport env doc (some c) o).doc.styleCount = 1 := by
        rw [capture_doc_styleCount, if_pos ⟨ho, h⟩]
      rw [runCaptures_styleCount_one env rest _ _ hd1]
      simp [List.any_cons, ho]
    · have ho' : o.hideScrollbars.getD true = false := by
        cases hcase : o.hideScrollbars.getD true
        · rfl
        · exact absurd hcase ho
      have hd0 : (captureViewport env doc (some c) o).doc.styleCount = 0 := by
        rw [capture_doc_styleCount, if_neg]
        · exact h
        · rintro ⟨hc, -⟩
          exact ho hc
      rw [ih _ _ hd0]
      simp [List.any_cons, ho']

/-- C6: starting from a document without the shared style element, any
sequence of captures leaves exactly one style element with the
well-known identifier when at least one capture had scrollbar hiding on
(and none otherwise) -- the insertion is guarded by the existence check
-- and no capture ever lowers the count (the resource is never
removed). -/
theorem c6_style_injected_once :
    (∀ (env : Env) (doc : Document) (c : Container) (optsList : List ViewportOptions),
      doc.styleCount = 0 →
      (runCaptures env doc c optsList).1.styleCount =
        if optsList.any (fun o => o.hideScrollbars.getD true) then 1 else 0) ∧
    (∀ (env : Env) (doc : Document) (c : Container) (opts : ViewportOptions),
      doc.styleCount ≤ (captureViewport env doc (some c) opts).doc.styleCount) :=
  ⟨fun env doc c optsList h => runCaptures_styleCount_from_zero env optsList doc c h,
   fun env doc c opts => capture_doc_mono env doc c opts⟩

/-- C6 witness: two default captures on a fresh document leave exactly
one shared style element. -/
theorem c6_style_injected_once_witness :
    (runCaptures okEnv {} sampleContainer [{}, {}]).1.styleCount = 1 :=
  (c6_style_injected_once.1 okEnv {} sampleContainer [{}, {}] rfl).trans (by decide)

/-- C7: for every non-null container, `getViewportInfo` reports
horizontal overflow exactly when `scrollWidth > clientWidth`, vertical
overflow exactly when `scrollHeight > clientHeight`, scrollability as
their disjunction, and echoes the four measured dimensions. -/
theorem c7_viewport_info (c : Container) (info : ViewportInfo)
    (h : getViewportInfo (some c) = Except.ok info) :
    (info.hasHorizontalScroll = true ↔ c.scrollWidth > c.clientWidth) ∧
    (info.hasVerticalScroll = true ↔ c.scrollHeight > c.clientHeight) ∧
    info.isScrollable = (info.hasHorizontalScroll || info.hasVerticalScroll) ∧
    info.visibleWidth = c.clientWidth ∧ info.visibleHeight = c.clientHeight ∧
    info.scrollWidth = c.scrollWidth ∧ info.scrollHeight = c.scrollHeight := by
  unfold getViewportInfo at h
  injection h with h
  subst h
  refine ⟨?_, ?_, rfl, rfl, rfl, rfl, rfl⟩ <;> simp

/-- The claim's end-to-end scenario container. -/
def c7Container : Container :=
  { clientWidth := 800, clientHeight := 600, scrollWidth := 1600, scrollHeight := 600 }

/-- The viewport info the claim predicts for that container. -/
def c7Info : ViewportInfo :=
  { visibleWidth := 800, visibleHeight := 600, scrollLeft := 0, scrollTop := 0
    scrollWidth := 1600, scrollHeight := 600
    isScrollable := true, hasHorizontalScroll := true, hasVerticalScroll := false }

/-- C7 witness: the 800x600 container with 1600x600 content yields
exactly the record of the claim. -/
theorem c7_viewport_info_witness :
    getViewportInfo (some c7Container) = Except.ok c7Info ∧
    ((c7Info.hasHorizontalScroll = true ↔ c7Container.scrollWidth > c7Container.clientWidth) ∧
     (c7Info.hasVerticalScroll = true ↔ c7Container.scrollHeight > c7Container.clientHeight) ∧
     c7Info.isScrollable = (c7Info.hasHorizontalScroll || c7Info.hasVerticalScroll) ∧
     c7Info.visibleWidth = c7Container.clientWidth ∧
     c7Info.visibleHeight = c7Container.clientHeight ∧
     c7Info.scrollWidth = c7Container.scrollWidth ∧
     c7Info.scrollHeight = c7Container.scrollHeight) :=
  ⟨by rfl, c7_viewport_info c7Container c7Info (by rfl)⟩

/-- C8: option normalization defaults `pixelRatio` to 2, `quality` to
0.95, and `backgroundColor` to the supplied value when present,
otherwise to `'#ffffff'` on the JPEG path and to undefined on the PNG
path; and each of the four export entry points applies exactly this
normalization, with the JPEG flag set only by `exportToJpeg`. -/
theorem c8_option_normalization :
    (∀ (o : ExportOptions) (isJpeg : Bool),
      (toHtmlToImageOptions o isJpeg).pixelRatio = o.pixelRatio.getD 2 ∧
      (toHtmlToImageOptions o isJpeg).quality = o.quality.getD (95 / 100) ∧
      (∀ b, o.backgroundColor = some b →
        (toHtmlToImageOptions o isJpeg).backgroundColor = some b) ∧
      (o.backgroundColor = none →
        (toHtmlToImageOptions o isJpeg).backgroundColor =
          if isJpeg then some "#ffffff" else none)) ∧
    (∀ (env : ExportEnv) (el : Container) (o : ExportOptions),
      exportToPng env (some el) o = env.toPng el (toHtmlToImageOptions o false) ∧
      exportToJpeg env (some el) o = env.toJpeg el (toHtmlToImageOptions o true) ∧
      exportToBlob env (some el) o = env.toBlob el (toHtmlToImageOptions o false) ∧
      exportToCanvas env (some el) o = env.elementToCanvas el (toHtmlToImageOptions o false)) := by
  constructor
  · intro o isJpeg
    refine ⟨rfl, rfl, ?_, ?_⟩
    · intro b hb
      simp [toHtmlToImageOptions, hb]
    · intro hb
      simp [toHtmlToImageOptions, hb, defaultJpegBackground]
  · intro env el o
    exact ⟨rfl, rfl, rfl, rfl⟩

/-- C8 witness: on empty options, normalization yields pixel ratio 2,
quality 0.95, background `'#ffffff'` for the JPEG path and none for the
PNG path. -/
theorem c8_option_normalization_witness :
    (toHtmlToImageOptions {} true).pixelRatio = 2 ∧
    (toHtmlToImageOptions {} true).quality = 95 / 100 ∧
    (toHtmlToImageOptions {} true).backgroundColor = some "#ffffff" ∧
    (toHtmlToImageOptions {} false).backgroundColor = none :=
  ⟨((c8_option_normalization.1 {} true).1).trans rfl,
   ((c8_option_normalization.1 {} true).2.1).trans rfl,
   (((c8_option_normalization.1 {} true).2.2.2) rfl).trans rfl,
   (((c8_option_normalization.1 {} false).2.2.2) rfl).trans rfl⟩

/-- C9: during a run of `captureViewport` the container handed to the
rasterizer differs from the input at most in its inline scrollbar-width
and its class list -- its inline overflow, its custom scrollbar property
and all geometry slots are untouched -- and on return the inline
overflow equals its pre-call value. -/
theorem c9_overflow_untouched (env : Env) (doc : Document) (c : Container)
    (opts : ViewportOptions) :
    ∃ cMid cFinal,
      (captureViewport env doc (some c) opts).midContainer? = some cMid ∧
      (captureViewport env doc (some c) opts).container? = some cFinal ∧
      cMid.style.overflow = c.style.overflow ∧
      cMid.style.webkitScrollbarDisplay = c.style.webkitScrollbarDisplay ∧
      cMid.clientWidth = c.clientWidth ∧ cMid.clientHeight = c.clientHeight ∧
      cMid.scrollWidth = c.scrollWidth ∧ cMid.scrollHeight = c.scrollHeight ∧
      cMid.scrollLeft = c.scrollLeft ∧ cMid.scrollTop = c.scrollTop ∧
      cFinal.style.overflow = c.style.overflow := by
  rcases capture_mid_container env doc c opts with h | h
  · exact ⟨c, _, h, capture_final_container env doc c opts,
      rfl, rfl, rfl, rfl, rfl, rfl, rfl, rfl, rfl⟩
  · exact ⟨_, _, h, capture_final_container env doc c opts,
      rfl, rfl, rfl, rfl, rfl, rfl, rfl, rfl, rfl⟩

lemma mkObjectUrl_ne_empty (n : Nat) : mkObjectUrl n ≠ "" := by
  unfold mkObjectUrl
  intro h
  have hlen : ("blob:" ++ toString n).length = ("" : String).length := by rw [h]
  rw [String.length_append] at hlen
  have h5 : ("blob:" : String).length = 5 := rfl
  have h0 : ("" : String).length = 0 := rfl
  rw [h5, h0] at hlen
  omega

lemma filter_ne_append_self (l : List String) (u : String) (h : u ∉ l) :
    (l ++ [u]).filter (fun x => x ≠ u) = l := by
  rw [List.filter_append]
  have h2 : [u].filter (fun x => x ≠ u) = [] := by simp
  rw [h2, List.append_nil]
  apply List.filter_eq_self.mpr
  intro a ha
  by_cases hax : a = u
  · exact absurd (hax ▸ ha) h
  · simp [hax]

/-- C10: for every well formed URL registry and non-empty filename,
`downloadBlob` on a present blob succeeds, creates exactly one object
URL, passes exactly that URL (with the filename) to `downloadImage`,
whose precondition checks cannot fire since the URL is non-empty, and
revokes the URL before returning, leaving the live-URL set unchanged. -/
theorem c10_download_blob_no_leak (s : UrlState) (filename : String)
    (hwf : s.wf) (hf : filename ≠ "") :
    (downloadBlob (some ()) filename s).result = Except.ok () ∧
    (downloadBlob (some ()) filename s).createdUrls = [mkObjectUrl s.nextId] ∧
    (downloadBlob (some ()) filename s).imageCalls = [(mkObjectUrl s.nextId, filename)] ∧
    downloadImage (mkObjectUrl s.nextId) filename = Except.ok () ∧
    (downloadBlob (some ()) filename s).urls.liveUrls = s.liveUrls := by
  have hdi : downloadImage (mkObjectUrl s.nextId) filename = Except.ok () := by
    unfold downloadImage
    rw [if_neg (mkObjectUrl_ne_empty s.nextId), if_neg hf]
  unfold downloadBlob createObjectURL revokeObjectURL
  rw [if_neg hf]
  simp only [hdi]
  exact ⟨by trivial, by trivial, by trivial, by trivial,
    filter_ne_append_self s.liveUrls (mkObjectUrl s.nextId) hwf⟩

/-- C10 witness: downloading a blob as `shot.png` from a fresh registry
creates `blob:0`, hands it to `downloadImage`, and revokes it. -/
theorem c10_download_blob_no_leak_witness :
    (downloadBlob (some ()) "shot.png" {}).result = Except.ok () ∧
    (downloadBlob (some ()) "shot.png" {}).createdUrls = [mkObjectUrl ({} : UrlState).nextId] ∧
    (downloadBlob (some ()) "shot.png" {}).imageCalls =
      [(mkObjectUrl ({} : UrlState).nextId, "shot.png")] ∧
    downloadImage (mkObjectUrl ({} : UrlState).nextId) "shot.png" = Except.ok () ∧
    (downloadBlob (some ()) "shot.png" {}).urls.liveUrls = ({} : UrlState).liveUrls :=
  c10_download_blob_no_leak {} "shot.png" (by simp [UrlState.wf]) (by decide)

end HtmlToPng
